import Mathlib

/-!
Verification development for the Travel-Agent repository.

This file shallowly embeds the core of the repository in Lean 4:

* `src/src/tools.py` — the tool bodies `get_weather_forecast`,
  `web_search_tavily` and `continue_chat`;
* `src/src/nodes.py` — the current-weather tool `get_weather_data`;
* `src/src/graph.py` — `chat_condition` and the assistant/tools loop of
  `create_travel_agent_graph`;
* `src/src/demo.py` — the display truncation inside `print_turn`.

Modelling conventions: Python floats are modelled as exact rationals (`ℚ`)
with `round(x, n)` as round-half-to-even; external HTTP calls are modelled
by oracle arguments describing the outcome of each attempt; a Python
uncaught exception propagating out of a function is modelled by the
`Except.error` constructor of `PyResult`, while every `return` statement is
`Except.ok`.  Tools that perform external calls additionally return the
number of underlying invocations they made, so retry policies are visible.
-/

namespace Travel

/-- Result of running a Python function body: `.ok s` is a normal `return s`;
`.error e` models an uncaught exception propagating to the caller. -/
abbrev PyResult := Except String String

/-! ## Numeric helpers: Python `round` and float formatting -/

/-- Python `round(q)` to an integer: round half to even (banker's rounding). -/
def roundHE (q : ℚ) : Int :=
  let f := Rat.floor q
  let r := q - (f : ℚ)
  if r < 1/2 then f
  else if 1/2 < r then f + 1
  else if f % 2 = 0 then f else f + 1

/-- Python `round(q, 1)`: round to one decimal place, half to even. -/
def round1 (q : ℚ) : ℚ := (roundHE (q * 10) : ℚ) / 10

/-- Rendering of a one-decimal float the way a Python f-string renders it
(e.g. `18.2`, `20.0`, `-252.8`).  The argument is assumed to be an exact
multiple of `1/10` (which `round1` guarantees). -/
def fmt1 (q : ℚ) : String :=
  let n : Int := Rat.floor (q * 10)
  (if n < 0 then "-" else "") ++ toString (n.natAbs / 10) ++ "." ++ toString (n.natAbs % 10)

/-! ## Calendar helpers (Python `datetime.date`)

`strptime(dt_txt, "%Y-%m-%d %H:%M:%S").date()` yields a civil date; the code
subtracts dates (`(forecast_date - today).days`), sorts them, and formats
them with `%A` / `%Y-%m-%d`.  We represent a parsed date by its civil
triple and compute day counts with the standard days-from-civil algorithm
(all dates produced by `strptime` satisfy `1 ≤ y`, `1 ≤ m ≤ 12`, `1 ≤ d ≤ 31`,
where every arithmetic step below stays in `Nat`). -/

structure Date where
  y : Nat
  m : Nat
  d : Nat
deriving DecidableEq

/-- Day count of a civil date with day 0 = 0000-03-01 (Hinnant's algorithm,
restricted to years ≥ 1 so that `Nat` arithmetic suffices). -/
def rataDie (dt : Date) : Nat :=
  let y := if dt.m ≤ 2 then dt.y - 1 else dt.y
  let era := y / 400
  let yoe := y - era * 400
  let mp := (dt.m + 9) % 12
  let doy := (153 * mp + 2) / 5 + dt.d - 1
  let doe := yoe * 365 + yoe / 4 - yoe / 100 + doy
  era * 146097 + doe

/-- Python `(a - b).days` for two `datetime.date` values. -/
def dateDiff (a b : Date) : Int := (rataDie a : Int) - (rataDie b : Int)

/-- Python `date.strftime("%A")`: the weekday name.  `rataDie ⟨1970,1,1⟩ % 7 = 1`
and 1970-01-01 was a Thursday, so index 0 is Wednesday. -/
def weekdayName (dt : Date) : String :=
  match rataDie dt % 7 with
  | 0 => "Wednesday"
  | 1 => "Thursday"
  | 2 => "Friday"
  | 3 => "Saturday"
  | 4 => "Sunday"
  | 5 => "Monday"
  | _ => "Tuesday"

def pad2 (n : Nat) : String := if n < 10 then "0" ++ toString n else toString n

def pad4 (n : Nat) : String :=
  if n < 10 then "000" ++ toString n
  else if n < 100 then "00" ++ toString n
  else if n < 1000 then "0" ++ toString n
  else toString n

/-- Python `date.strftime("%Y-%m-%d")`. -/
def ymdStr (dt : Date) : String := pad4 dt.y ++ "-" ++ pad2 dt.m ++ "-" ++ pad2 dt.d

/-- Python chronological ordering on valid civil dates, via the key
`y*10000 + m*100 + d` (lexicographic on the triple since `m ≤ 12 < 100` and
`d ≤ 31 < 100`). -/
def dateLe (a b : Date) : Bool :=
  a.y * 10000 + a.m * 100 + a.d ≤ b.y * 10000 + b.m * 100 + b.d

/-! ## List and string helpers mirroring Python builtins -/

/-- Python `s.strip()`: drop leading and trailing whitespace (structurally,
so that concrete instances reduce). -/
def pyStrip (s : String) : String :=
  String.mk (((s.data.dropWhile Char.isWhitespace).reverse.dropWhile Char.isWhitespace).reverse)

/-- Python `min(l)` for a nonempty list (0 for an empty list, never reached). -/
def listMin : List ℚ → ℚ
  | [] => 0
  | x :: xs => xs.foldl min x

/-- Python `max(l)` for a nonempty list (0 for an empty list, never reached). -/
def listMax : List ℚ → ℚ
  | [] => 0
  | x :: xs => xs.foldl max x

def listSum (l : List ℚ) : ℚ := l.foldl (· + ·) 0

/-- Python `l[:n]`: take `n` from the front when `n ≥ 0`, drop `|n|` from the
end when `n < 0`. -/
def pyTakeSlice {α : Type} (l : List α) (n : Int) : List α :=
  if 0 ≤ n then l.take n.toNat else l.take (l.length - n.natAbs)

/-! ## `src/src/nodes.py` — `get_weather_data`

The fields the body reads from the first forecast entry by direct
subscripting (`current_forecast["main"]["temp"]`, …).  A response in which
one of those keys is missing raises `KeyError`, which the body catches; we
model that whole class of responses by the `NodesNet.keyError` outcome. -/

structure CurrentEntry where
  temp : ℚ
  description : String
  humidity : Int
  dt_txt : String

structure CurrentPayload where
  list : List CurrentEntry

/-- Outcome of the single `requests.get` call in `nodes.get_weather_data`:
a `requests.exceptions.RequestException` (connection error, timeout,
`raise_for_status`), a malformed-shape response (raises `KeyError` during
field access), any other exception, or a well-formed JSON payload. -/
inductive NodesNet where
  | reqError
  | keyError
  | otherError (msg : String)
  | ok (payload : CurrentPayload)

/-- Embedding of `nodes.get_weather_data(location)`.  `apiKey` is
`os.getenv("WEATHER_API_KEY")`; `net` the outcome of the HTTP call. -/
def get_weather_data (location : String) (apiKey : Option String) (net : NodesNet) : PyResult :=
  match apiKey with
  | none => .ok "Weather data unavailable: API key not configured"
  | some _ =>
    match net with
    | .reqError => .ok ("Failed to get weather data for " ++ location ++ ": Network error")
    | .keyError => .ok ("Failed to parse weather data for " ++ location ++ ": Invalid response format")
    | .otherError msg => .ok ("Weather data unavailable for " ++ location ++ ": " ++ msg)
    | .ok payload =>
      match payload.list with
      | [] => .ok ("No weather data available for " ++ location)
      | cf :: _ =>
        let temp_celsius := round1 (cf.temp - 27315/100)
        .ok ("Weather in " ++ location ++ ": " ++ fmt1 temp_celsius ++ "°C, " ++
          cf.description ++ ", humidity " ++ toString cf.humidity ++
          "% (forecast for " ++ cf.dt_txt ++ ")")

/-! ## `src/src/tools.py` — `get_weather_forecast` -/

/-- Result of `datetime.strptime(dt_txt, "%Y-%m-%d %H:%M:%S")`: the civil
date plus the `strftime("%H:%M")` rendering collected into `times`. -/
structure DateTime where
  date : Date
  hm : String

/-- One element of `data["list"]`.  Every field is read with
`.get(key, default)`, so a missing key is `none` here.  `dt` is `none` when
`dt_txt` is missing, empty, or fails to parse (the code skips the entry in
all three cases, logging aside). -/
structure ForecastEntry where
  dt : Option DateTime
  temp : Option ℚ
  humidity : Option ℚ
  description : Option String
  pop : Option ℚ

structure ForecastPayload where
  list : List ForecastEntry
  city : Option String

/-- Outcome of the single `requests.get` call in `get_weather_forecast`:
`requests.exceptions.RequestException`, any other exception (e.g. a
malformed JSON body), or a decoded payload. -/
inductive WeatherNet where
  | reqError (msg : String)
  | otherError (msg : String)
  | ok (data : ForecastPayload)

/-- The per-day accumulator dict created for each new date key. -/
structure DayData where
  temps : List ℚ
  descriptions : List String
  humidity : List ℚ
  pop : List ℚ
  times : List String

def emptyDayData : DayData := ⟨[], [], [], [], []⟩

/-- Append one forecast entry's fields to its date's accumulator lists. -/
def appendEntry (e : ForecastEntry) (dtv : DateTime) (dd : DayData) : DayData :=
  { temps := dd.temps ++ [e.temp.getD 0]
    descriptions := dd.descriptions ++ [e.description.getD ""]
    humidity := dd.humidity ++ [e.humidity.getD 0]
    pop := dd.pop ++ [e.pop.getD 0 * 100]
    times := dd.times ++ [dtv.hm] }

/-- Insert into the insertion-ordered dict `daily_forecasts`: update the
existing key in place, or append a fresh accumulator at the end. -/
def insertEntry : List (Date × DayData) → Date → (DayData → DayData) → List (Date × DayData)
  | [], dt, f => [(dt, f emptyDayData)]
  | (k, v) :: rest, dt, f =>
    if k = dt then (k, f v) :: rest else (k, v) :: insertEntry rest dt f

/-- The grouping loop over `forecasts`: skip entries without a parsable
`dt_txt`, skip dates outside `[today, today + days)`, and accumulate the
rest per date. -/
def groupForecasts (entries : List ForecastEntry) (days : Int) (today : Date) :
    List (Date × DayData) :=
  entries.foldl
    (fun acc e =>
      match e.dt with
      | none => acc
      | some dtv =>
        let days_from_today := dateDiff dtv.date today
        if days_from_today < 0 ∨ days ≤ days_from_today then acc
        else insertEntry acc dtv.date (appendEntry e dtv))
    []

/-- Python `sorted(daily_forecasts.keys())` via insertion sort with the
chronological order on dates. -/
def insertSorted (x : Date) : List Date → List Date
  | [] => [x]
  | y :: ys => if dateLe x y then x :: y :: ys else y :: insertSorted x ys

def sortDates (l : List Date) : List Date := l.foldr insertSorted []

/-- Dict lookup `daily_forecasts[date]` (the key is present by construction). -/
def findDay : List (Date × DayData) → Date → DayData
  | [], _ => emptyDayData
  | (k, v) :: rest, dt => if k = dt then v else findDay rest dt

/-- Python `max(desc_counts, key=desc_counts.get) if desc_counts else "unknown"`:
first-insertion-ordered keys, first key with strictly maximal count wins. -/
def mostCommonDesc (l : List String) : String :=
  let keys := l.foldl (fun ks s => if ks.contains s then ks else ks ++ [s]) []
  match keys with
  | [] => "unknown"
  | k :: ks => ks.foldl (fun best cand => if l.count best < l.count cand then cand else best) k

/-- One output line of the forecast (the `result_lines.append(...)` body). -/
def formatDay (today : Date) (date : Date) (dd : DayData) : String :=
  let min_temp := round1 (listMin dd.temps)
  let max_temp := round1 (listMax dd.temps)
  let avg_humidity := roundHE (listSum dd.humidity / (dd.humidity.length : ℚ))
  let max_pop : Int := if dd.pop.isEmpty then 0 else roundHE (listMax dd.pop)
  let most_common_desc := mostCommonDesc dd.descriptions
  let day_name := weekdayName date
  let date_str := ymdStr date
  let days_from_today := dateDiff date today
  let date_label :=
    if days_from_today = 0 then "Today"
    else if days_from_today = 1 then "Tomorrow"
    else day_name
  date_label ++ " (" ++ date_str ++ "): " ++ fmt1 min_temp ++ "°C - " ++ fmt1 max_temp ++
    "°C, " ++ most_common_desc ++ ", humidity " ++ toString avg_humidity ++
    "%, precipitation chance " ++ toString max_pop ++ "%"

/-- The formatting stage of `get_weather_forecast` after a successful,
nonempty response (`location` is already stripped here). -/
def formatForecast (location : String) (days : Int) (today : Date)
    (data : ForecastPayload) : String :=
  let daily_forecasts := groupForecasts data.list days today
  if daily_forecasts.isEmpty then "No valid forecast data found for " ++ location
  else
    let city_name := data.city.getD location
    let header := "Weather forecast for " ++ city_name ++ ":"
    let result_lines :=
      (sortDates (daily_forecasts.map Prod.fst)).foldl
        (fun acc date =>
          let day_data := findDay daily_forecasts date
          if day_data.temps.isEmpty then acc
          else acc ++ [formatDay today date day_data])
        [header]
    String.intercalate "\n" result_lines

/-- Embedding of `tools.get_weather_forecast(location, days)`.

`days = none` models a non-`int` argument (`not isinstance(days, int)`);
`apiKey` is `os.getenv("WEATHER_API_KEY")`; `today` is
`datetime.now().date()`; `net` the outcome of the single HTTP request.
The second component counts how many times the underlying HTTP call was
invoked. -/
def get_weather_forecast (location : String) (days : Option Int) (apiKey : Option String)
    (today : Date) (net : WeatherNet) : PyResult × Nat :=
  if location = "" ∨ (pyStrip location).length < 2 then
    (.ok "I need a valid city/location name to get weather forecast.", 0)
  else
    let days : Int := match days with
      | none => 5
      | some d => if d < 1 ∨ 5 < d then 5 else d
    let location := pyStrip location
    match apiKey with
    | none => (.ok "Weather forecast unavailable: API key not configured", 0)
    | some _ =>
      match net with
      | .reqError _ =>
        (.ok ("Weather forecast unavailable for " ++ location ++ ": Network error"), 1)
      | .otherError msg =>
        (.ok ("Weather forecast unavailable for " ++ location ++ ": " ++ msg), 1)
      | .ok data =>
        if data.list.isEmpty then
          (.ok ("No weather forecast available for " ++ location), 1)
        else
          (.ok (formatForecast location days today data), 1)

/-! ## `src/src/tools.py` — `web_search_tavily` -/

/-- The character `"` (written via its code point to keep it out of string
literals). -/
def quoteChar : Char := Char.ofNat 34

/-- The character `'`. -/
def apostropheChar : Char := Char.ofNat 39

/-- Python `s.replace('"', "'")`: a single-character replacement is a
character-wise map. -/
def sanitizeQuotes (s : String) : String :=
  String.mk (s.data.map (fun c => if c = quoteChar then apostropheChar else c))

/-- One result document.  Fields read with `doc.get(...)`; `none` models a
missing key or an explicit `None` value (both are falsy under `or`). -/
structure TavilyDoc where
  url : Option String
  title : Option String
  content : Option String
  raw_content : Option String

/-- Python `(doc.get("content") or doc.get("raw_content") or "").strip()`. -/
def docContent (doc : TavilyDoc) : String :=
  pyStrip (if doc.content.getD "" = "" then doc.raw_content.getD "" else doc.content.getD "")

/-- Python `(doc.get("url") or "").strip()`. -/
def docUrl (doc : TavilyDoc) : String := pyStrip (doc.url.getD "")

/-- Python `(doc.get("title") or "").strip()`. -/
def docTitle (doc : TavilyDoc) : String := pyStrip (doc.title.getD "")

/-- Python `(content[:280] + "…") if len(content) > 280 else content`. -/
def summarize (content : String) : String :=
  if 280 < content.length then String.mk (content.data.take 280) ++ "…" else content

/-- The pseudo-structured record string
`'{title: "...", url: "...", summary: "..."}'` (literal braces escaped). -/
def renderRecord (t u s : String) : String :=
  "\x7btitle: \"" ++ t ++ "\", url: \"" ++ u ++ "\", summary: \"" ++ s ++ "\"\x7d"

/-- The body of the `for doc in results[...]` normalization loop for one
element: `none` for a skipped element (not a dict, or all three fields
empty). -/
def normalizeDoc : Option TavilyDoc → Option String
  | none => none
  | some doc =>
    let url := docUrl doc
    let title := docTitle doc
    let summary := summarize (docContent doc)
    if url ≠ "" ∨ title ≠ "" ∨ summary ≠ "" then
      some (renderRecord (sanitizeQuotes title) (sanitizeQuotes url) (sanitizeQuotes summary))
    else none

/-- Python `f'sources: [{", ".join(normalized)}]'` guarded by the
`if not normalized` early return. -/
def renderSources (normalized : List String) : String :=
  if normalized.isEmpty then "sources: []"
  else "sources: [" ++ String.intercalate ", " normalized ++ "]"

/-- Shape of `tavily_search.invoke(query)`'s return value: a dict with a
`"results"` key (`none` inside models `results = None`, emptied by
`or []`), a bare list, or any other object (captured by its `str(...)`
rendering).  List elements that are not dicts are `none`. -/
inductive TavilyResp where
  | dictWithResults (results : Option (List (Option TavilyDoc)))
  | listResp (results : List (Option TavilyDoc))
  | other (reprStr : String)

/-- Outcome of one `tavily_search.invoke(query)` attempt. -/
inductive TavilyOutcome where
  | err (msg : String)
  | ok (resp : TavilyResp)

/-- Whether an attempt raised. -/
def TavilyOutcome.isErr : TavilyOutcome → Bool
  | .err _ => true
  | .ok _ => false

/-- Normalization and formatting of a successful search response
(everything after the retry loop). -/
def processResp (resp : TavilyResp) (maxResults : Int) : String :=
  match resp with
  | .other reprStr =>
    "sources: [\x7btitle: \"Result\", url: \"tavily-search\", summary: \"" ++
      String.mk (reprStr.data.take 200) ++ "...\"\x7d]"
  | .dictWithResults ores =>
    renderSources
      ((pyTakeSlice (ores.getD []) (if maxResults = 0 then 2 else maxResults)).filterMap
        normalizeDoc)
  | .listResp res =>
    renderSources
      ((pyTakeSlice res (if maxResults = 0 then 2 else maxResults)).filterMap normalizeDoc)

/-- Embedding of `tools.web_search_tavily(query, max_results)`.

`apiKey` is `os.getenv("TAVILY_API_KEY")`; `oracle n` is the outcome of
invocation attempt `n` of the retry loop (`for attempt in range(2)`).
The second component counts the underlying invocations made. -/
def web_search_tavily (query : String) (maxResults : Int) (apiKey : Option String)
    (oracle : Nat → TavilyOutcome) : PyResult × Nat :=
  if (pyStrip query).length = 0 then (.ok "sources: []", 0)
  else
    match apiKey with
    | none => (.ok "Search unavailable: TAVILY_API_KEY not configured", 0)
    | some _ =>
      match oracle 0 with
      | .ok resp => (.ok (processResp resp maxResults), 1)
      | .err _ =>
        match oracle 1 with
        | .ok resp => (.ok (processResp resp maxResults), 2)
        | .err _ => (.ok "sources: []", 2)

/-- Embedding of `tools.continue_chat(user_message)`. -/
def continue_chat (_user_message : String) : PyResult := .ok "CONTINUE_CHAT"

/-! ## `src/src/graph.py` — `chat_condition` and the assistant/tools loop -/

/-- Message roles distinguishing the langchain message classes: only
`AIMessage` carries a `tool_calls` attribute. -/
inductive Role where
  | user
  | ai
  | toolResult
deriving DecidableEq

structure ToolCall where
  name : String
  args : String
deriving DecidableEq

structure Msg where
  role : Role
  content : String
  tool_calls : List ToolCall
deriving DecidableEq

/-- Python `hasattr(last_msg, 'tool_calls')`: true exactly for `AIMessage`. -/
def hasToolCallsAttr (m : Msg) : Bool := m.role = .ai

/-- Embedding of `graph.chat_condition(state)`: routes on the last message;
`none` models the `IndexError` of `state["messages"][-1]` on an empty
history (never reached in the graph, where the assistant node has just
appended a message). -/
def chat_condition (msgs : List Msg) : Option String :=
  match msgs.getLast? with
  | none => none
  | some last =>
    some (if hasToolCallsAttr last ∧ last.tool_calls ≠ [] then "tools" else "END")

/-- Nodes of the compiled graph: the `assistant` node, the `tools` node,
and the `END` sentinel. -/
inductive GNode where
  | assistant
  | tools
  | done
deriving DecidableEq

/-- A snapshot of the run: the node about to execute, the message state and
how many times the `tools` node has run. -/
structure GraphState where
  node : GNode
  messages : List Msg
  dispatches : Nat
deriving DecidableEq

/-- One superstep of the compiled graph of `create_travel_agent_graph`:
the `assistant` node appends `dec`'s message and routes through
`chat_condition`; the `tools` node appends the executor's tool-result
messages for the last message's `tool_calls` and returns to `assistant`
(edge `tools -> assistant`); `END` is absorbing. -/
def graphStep (dec : List Msg → Msg) (execBatch : List ToolCall → List Msg) :
    GraphState → GraphState
  | ⟨.assistant, msgs, d⟩ =>
    let msgs' := msgs ++ [dec msgs]
    match chat_condition msgs' with
    | some r => if r = "tools" then ⟨.tools, msgs', d⟩ else ⟨.done, msgs', d⟩
    | none => ⟨.done, msgs', d⟩
  | ⟨.tools, msgs, d⟩ =>
    ⟨.assistant, msgs ++ execBatch ((msgs.getLast?.map Msg.tool_calls).getD []), d + 1⟩
  | ⟨.done, msgs, d⟩ => ⟨.done, msgs, d⟩

/-- Run the graph for `n` supersteps from the initial state (the edge
`START -> assistant`). -/
def runGraph (dec : List Msg → Msg) (execBatch : List ToolCall → List Msg)
    (init : List Msg) : Nat → GraphState
  | 0 => ⟨.assistant, init, 0⟩
  | n + 1 => graphStep dec execBatch (runGraph dec execBatch init n)

/-- A decision step that always requests a (valid) tool call. -/
def alwaysToolDec : List Msg → Msg :=
  fun _ => ⟨.ai, "", [⟨"get_weather_forecast", "Paris"⟩]⟩

/-- A tool executor producing one tool-result message per requested call. -/
def echoExec : List ToolCall → List Msg :=
  fun calls => calls.map (fun c => ⟨.toolResult, "result of " ++ c.name, []⟩)

/-! ## `src/src/demo.py` — the display truncation inside `print_turn` -/

/-- Embedding of the `ToolMessage` branch of `demo.print_turn`:
`display = out if len(out) < 2000 else (out[:2000] + "... [truncated]")`. -/
def printTurnDisplay (out : String) : String :=
  if out.length < 2000 then out else String.mk (out.data.take 2000) ++ "... [truncated]"

/-! ## Shared concrete data and helper instances for the theorems below -/

instance : DecidableEq PyResult := fun x y =>
  match x, y with
  | .ok a, .ok b => if h : a = b then .isTrue (by rw [h]) else .isFalse (by simp [h])
  | .error a, .error b => if h : a = b then .isTrue (by rw [h]) else .isFalse (by simp [h])
  | .ok _, .error _ => .isFalse (by simp)
  | .error _, .ok _ => .isFalse (by simp)

/-- A well-formed single-entry upstream forecast payload: one reading for
2024-05-01 12:00 with temperature 20.34 (the unit the upstream sends for
`units=metric`), humidity 60, description "clear sky", zero precipitation
probability. -/
def sampleForecastPayload : ForecastPayload :=
  ⟨[⟨some ⟨⟨2024, 5, 1⟩, "12:00"⟩, some (mkRat 1017 50), some 60, some "clear sky", some 0⟩],
   some "Paris"⟩

/-- Whether a Python call returned normally (as opposed to an uncaught
exception propagating to the caller). -/
def isNormalReturn : PyResult → Bool
  | .ok _ => true
  | .error _ => false

/-- A decision step that answers directly, with no tool calls. -/
def finalAnswerDec : List Msg → Msg := fun _ => ⟨.ai, "It will be sunny in Paris.", []⟩

/-- A search result document whose content runs to 300 characters. -/
def c6doc : TavilyDoc :=
  ⟨some "https://rome.example", some "Colosseum guide", some (String.mk (List.replicate 300 'c')),
   none⟩

/-- A search oracle that succeeds immediately with `c6doc` as its only result. -/
def c6oracle : Nat → TavilyOutcome := fun _ => .ok (.dictWithResults (some [some c6doc]))

/-- A 3000-character result title. -/
def c8title : String := String.mk (List.replicate 3000 'a')

/-- A search result document carrying only the 3000-character title. -/
def longTitleDoc : TavilyDoc := ⟨none, some c8title, none, none⟩

/-- A search oracle that succeeds immediately with `longTitleDoc` as its only
result. -/
def c8oracle : Nat → TavilyOutcome := fun _ => .ok (.dictWithResults (some [some longTitleDoc]))

/-- The string the search tool hands back to the conversation for
`c8oracle`'s response: a 3000-character title embedded in full. -/
def c8output : String := renderSources [renderRecord c8title "" ""]

/-! ## C10 — out-of-range `days` is silently replaced by 5 -/

/-- C10: for every call to the weather forecast tool, a `days` argument that
is not an integer in the range 1..5 does not produce an error: the tool
behaves exactly as if `days = 5` had been supplied (first conjunct:
out-of-range integers; second conjunct: non-integer arguments, modelled by
`none`). -/
theorem C10_days_defaulting :
    (∀ (location : String) (d : Int) (apiKey : Option String) (today : Date) (net : WeatherNet),
      d < 1 ∨ 5 < d →
      get_weather_forecast location (some d) apiKey today net =
        get_weather_forecast location (some 5) apiKey today net) ∧
    (∀ (location : String) (apiKey : Option String) (today : Date) (net : WeatherNet),
      get_weather_forecast location none apiKey today net =
        get_weather_forecast location (some 5) apiKey today net) := by
  constructor
  · intro location d apiKey today net h
    by_cases hv : location = "" ∨ (pyStrip location).length < 2
    · simp only [get_weather_forecast, if_pos hv]
    · simp only [get_weather_forecast, if_neg hv, if_pos h]
      norm_num
  · intro location apiKey today net
    by_cases hv : location = "" ∨ (pyStrip location).length < 2
    · simp only [get_weather_forecast, if_pos hv]
    · simp only [get_weather_forecast, if_neg hv]
      norm_num

/-- Witness for C10 at concrete inputs: `days = 7` (out of range) and a
non-integer `days` both behave like `days = 5`. -/
theorem C10_days_defaulting_witness :
    get_weather_forecast "Paris" (some 7) (some "k") ⟨2024, 5, 1⟩ (.ok sampleForecastPayload) =
      get_weather_forecast "Paris" (some 5) (some "k") ⟨2024, 5, 1⟩ (.ok sampleForecastPayload) ∧
    get_weather_forecast "Paris" none (some "k") ⟨2024, 5, 1⟩ (.ok sampleForecastPayload) =
      get_weather_forecast "Paris" (some 5) (some "k") ⟨2024, 5, 1⟩ (.ok sampleForecastPayload) :=
  ⟨C10_days_defaulting.1 "Paris" 7 (some "k") ⟨2024, 5, 1⟩ (.ok sampleForecastPayload)
      (by norm_num),
   C10_days_defaulting.2 "Paris" (some "k") ⟨2024, 5, 1⟩ (.ok sampleForecastPayload)⟩

/-! ## C5 — missing credential yields a fixed unavailability string -/

/-- C5: with the credential environment variable unset, each tool returns its
fixed unavailability string as a normal tool result (and performs zero
underlying network invocations); no exception is raised.  The hypotheses
restrict to inputs that pass the input-validation guards that run before the
credential check. -/
theorem C5_missing_credential :
    (∀ (location : String) (days : Option Int) (today : Date) (net : WeatherNet),
      ¬(location = "" ∨ (pyStrip location).length < 2) →
      get_weather_forecast location days none today net =
        (.ok "Weather forecast unavailable: API key not configured", 0)) ∧
    (∀ (query : String) (maxResults : Int) (oracle : Nat → TavilyOutcome),
      (pyStrip query).length ≠ 0 →
      web_search_tavily query maxResults none oracle =
        (.ok "Search unavailable: TAVILY_API_KEY not configured", 0)) ∧
    (∀ (location : String) (net : NodesNet),
      get_weather_data location none net =
        .ok "Weather data unavailable: API key not configured") := by
  refine ⟨?_, ?_, ?_⟩
  · intro location days today net hv
    simp only [get_weather_forecast, if_neg hv]
  · intro query maxResults oracle hq
    simp only [web_search_tavily, if_neg hq]
  · intro location net
    rfl

/-- Witness for C5 at concrete inputs with the credentials unset. -/
theorem C5_missing_credential_witness :
    get_weather_forecast "Paris" (some 3) none ⟨2024, 5, 1⟩ (.ok sampleForecastPayload) =
      (.ok "Weather forecast unavailable: API key not configured", 0) ∧
    web_search_tavily "rome attractions" 2 none (fun _ => .err "unused") =
      (.ok "Search unavailable: TAVILY_API_KEY not configured", 0) ∧
    get_weather_data "Paris" none .reqError =
      .ok "Weather data unavailable: API key not configured" :=
  ⟨C5_missing_credential.1 "Paris" (some 3) ⟨2024, 5, 1⟩ (.ok sampleForecastPayload) (by decide),
   C5_missing_credential.2.1 "rome attractions" 2 (fun _ => .err "unused") (by decide),
   C5_missing_credential.2.2 "Paris" .reqError⟩

/-! ## C3 — no exception escapes a tool body -/

/-- C3: for every input and every outcome of the underlying external call
(success, validation failure, missing credential, network error, any other
exception), each tool function returns normally with a string — the
`Except.error` channel, which models an exception escaping the tool
boundary, is never used. -/
theorem C3_no_exception_escapes :
    (∀ (location : String) (days : Option Int) (apiKey : Option String) (today : Date)
        (net : WeatherNet),
      isNormalReturn (get_weather_forecast location days apiKey today net).1 = true) ∧
    (∀ (query : String) (maxResults : Int) (apiKey : Option String)
        (oracle : Nat → TavilyOutcome),
      isNormalReturn (web_search_tavily query maxResults apiKey oracle).1 = true) ∧
    (∀ msg : String, isNormalReturn (continue_chat msg) = true) := by
  refine ⟨?_, ?_, ?_⟩
  · intro location days apiKey today net
    by_cases hv : location = "" ∨ (pyStrip location).length < 2
    · simp only [get_weather_forecast, if_pos hv, isNormalReturn]
    · cases apiKey with
      | none => simp only [get_weather_forecast, if_neg hv, isNormalReturn]
      | some k =>
        cases net with
        | reqError m => simp only [get_weather_forecast, if_neg hv, isNormalReturn]
        | otherError m => simp only [get_weather_forecast, if_neg hv, isNormalReturn]
        | ok data =>
          by_cases hl : data.list.isEmpty
          · simp only [get_weather_forecast, if_neg hv, if_pos hl, isNormalReturn]
          · simp only [get_weather_forecast, if_neg hv, if_neg hl, isNormalReturn]
  · intro query maxResults apiKey oracle
    by_cases hq : (pyStrip query).length = 0
    · simp only [web_search_tavily, if_pos hq, isNormalReturn]
    · cases apiKey with
      | none => simp only [web_search_tavily, if_neg hq, isNormalReturn]
      | some k =>
        cases h0 : oracle 0 with
        | ok resp => simp only [web_search_tavily, if_neg hq, h0, isNormalReturn]
        | err m =>
          cases h1 : oracle 1 with
          | ok resp => simp only [web_search_tavily, if_neg hq, h0, h1, isNormalReturn]
          | err m2 => simp only [web_search_tavily, if_neg hq, h0, h1, isNormalReturn]
  · intro msg
    rfl

/-! ## C1 — retry policy on total failure of the underlying call -/

/-- C1 counterexample: the weather forecast tool (`tools.get_weather_forecast`)
performs **no** retry.  At a concrete input whose underlying call fails
(network error), the call is invoked exactly once — not the "initial attempt
plus exactly one retry" (two invocations) the claim asserts — before the
failure string is returned. -/
theorem C1_counterexample :
    get_weather_forecast "Paris" (some 3) (some "key") ⟨2024, 5, 1⟩ (.reqError "timeout") =
      (.ok "Weather forecast unavailable for Paris: Network error", 1) ∧
    (get_weather_forecast "Paris" (some 3) (some "key") ⟨2024, 5, 1⟩ (.reqError "timeout")).2 ≠
      2 := by
  exact ⟨by decide, by decide⟩

/-- C1 (amended): when the underlying external call fails on every attempt,
the search tool invokes it exactly twice (initial attempt plus one retry
with the same query) and then returns the failure string `"sources: []"`;
the weather forecast tool invokes its call exactly once (no retry) and then
returns its fixed failure string.  Neither propagates an error. -/
theorem C1_retry_bounds :
    (∀ (query : String) (maxResults : Int) (k : String) (oracle : Nat → TavilyOutcome),
      (pyStrip query).length ≠ 0 →
      (∀ n, (oracle n).isErr = true) →
      web_search_tavily query maxResults (some k) oracle = (.ok "sources: []", 2)) ∧
    (∀ (location : String) (days : Option Int) (k : String) (today : Date) (msg : String),
      ¬(location = "" ∨ (pyStrip location).length < 2) →
      get_weather_forecast location days (some k) today (.reqError msg) =
        (.ok ("Weather forecast unavailable for " ++ pyStrip location ++ ": Network error"),
          1)) := by
  constructor
  · intro query maxResults k oracle hq herr
    have h0 := herr 0
    have h1 := herr 1
    cases e0 : oracle 0 with
    | ok r => rw [e0] at h0; simp [TavilyOutcome.isErr] at h0
    | err m0 =>
      cases e1 : oracle 1 with
      | ok r => rw [e1] at h1; simp [TavilyOutcome.isErr] at h1
      | err m1 => simp only [web_search_tavily, if_neg hq, e0, e1]
  · intro location days k today msg hv
    simp only [get_weather_forecast, if_neg hv]

/-- Witness for C1 at concrete inputs: an always-failing search oracle and a
failing weather call. -/
theorem C1_retry_bounds_witness :
    web_search_tavily "best hotels in Rome" 2 (some "tk") (fun _ => .err "connection reset") =
      (.ok "sources: []", 2) ∧
    get_weather_forecast "Tokyo" (some 3) (some "wk") ⟨2024, 5, 1⟩ (.reqError "timeout") =
      (.ok ("Weather forecast unavailable for " ++ pyStrip "Tokyo" ++ ": Network error"), 1) :=
  ⟨C1_retry_bounds.1 "best hotels in Rome" 2 "tk" (fun _ => .err "connection reset")
      (by decide) (fun _ => rfl),
   C1_retry_bounds.2 "Tokyo" (some 3) "wk" ⟨2024, 5, 1⟩ "timeout" (by decide)⟩

/-! ## C4 — temperature normalization to Celsius -/

/-- C4 (amended): in the current-weather path (`nodes.get_weather_data`),
where the upstream unit is Kelvin, the temperature reported to the
conversation is `round(kelvin - 273.15, 1)`, rendered with one decimal
place. -/
theorem C4_kelvin_to_celsius (location : String) (k : String) (cf : CurrentEntry)
    (rest : List CurrentEntry) :
    get_weather_data location (some k) (.ok ⟨cf :: rest⟩) =
      .ok ("Weather in " ++ location ++ ": " ++ fmt1 (round1 (cf.temp - 27315/100)) ++
        "°C, " ++ cf.description ++ ", humidity " ++ toString cf.humidity ++
        "% (forecast for " ++ cf.dt_txt ++ ")") := rfl

section ConcreteEvaluation

attribute [local semireducible] Rat.add Rat.sub Rat.mul Rat.inv Rat.ofScientific

set_option maxRecDepth 8000

/-- C4 counterexample: the forecast tool (`tools.get_weather_forecast`)
requests `units=metric`, so the upstream value is already Celsius and the
tool reports `round(t, 1)` without subtracting 273.15.  At upstream value
20.34 the report reads `20.3°C`, whereas the claimed conversion
`round(kelvin - 273.15, 1)` would render `-252.8`. -/
theorem C4_counterexample :
    (get_weather_forecast "Paris" (some 5) (some "k") ⟨2024, 5, 1⟩
        (.ok sampleForecastPayload)).1 =
      .ok ("Weather forecast for Paris:\nToday (2024-05-01): " ++ "20.3" ++ "°C - " ++
        "20.3" ++ "°C, clear sky, humidity 60%, precipitation chance 0%") ∧
    fmt1 (round1 (mkRat 1017 50 - mkRat 27315 100)) = "-252.8" ∧
    ("-252.8" : String) ≠ "20.3" := by
  exact ⟨by decide, by decide, by decide⟩

/-- C9 counterexample: the forecast formatter is **not** a function of the
upstream payload alone — it also reads the current date
(`datetime.now().date()`).  With the identical upstream payload, running the
tool on 2024-05-01 labels the forecast line "Today" while running it on
2024-04-30 labels it "Tomorrow", producing different output strings. -/
theorem C9_counterexample :
    (get_weather_forecast "Paris" (some 5) (some "k") ⟨2024, 5, 1⟩
        (.ok sampleForecastPayload)).1 ≠
    (get_weather_forecast "Paris" (some 5) (some "k") ⟨2024, 4, 30⟩
        (.ok sampleForecastPayload)).1 := by
  decide

end ConcreteEvaluation

/-- C9 (amended): tool output is deterministic given the inputs the code
actually reads: two executions with identical upstream data (and, for the
forecast tool, the same current date) produce byte-identical strings — in
particular the output never depends on the credential value. -/
theorem C9_formatting_deterministic :
    (∀ (location : String) (net : NodesNet) (k₁ k₂ : String),
      get_weather_data location (some k₁) net = get_weather_data location (some k₂) net) ∧
    (∀ (location : String) (days : Option Int) (today : Date) (net : WeatherNet)
        (k₁ k₂ : String),
      get_weather_forecast location days (some k₁) today net =
        get_weather_forecast location days (some k₂) today net) := by
  constructor
  · intro location net k₁ k₂
    rfl
  · intro location days today net k₁ k₂
    by_cases hv : location = "" ∨ (pyStrip location).length < 2
    · simp only [get_weather_forecast, if_pos hv]
    · simp only [get_weather_forecast, if_neg hv]

/-! ## Graph lemmas shared by C2 and C7 -/

/-- Condition routing for a history ending in a freshly appended message. -/
lemma chat_condition_concat (l : List Msg) (m : Msg) :
    chat_condition (l ++ [m]) =
      some (if hasToolCallsAttr m ∧ m.tool_calls ≠ [] then "tools" else "END") := by
  unfold chat_condition
  rw [List.getLast?_concat]

/-- The assistant node routes to the tools node when the decision message is
an `AIMessage` with a nonempty `tool_calls` list. -/
lemma graphStep_assistant_toolcall (dec : List Msg → Msg) (execB : List ToolCall → List Msg)
    (msgs : List Msg) (d : Nat) (hai : (dec msgs).role = .ai)
    (htc : (dec msgs).tool_calls ≠ []) :
    graphStep dec execB ⟨.assistant, msgs, d⟩ = ⟨.tools, msgs ++ [dec msgs], d⟩ := by
  have hcond : hasToolCallsAttr (dec msgs) ∧ (dec msgs).tool_calls ≠ [] := by
    refine ⟨?_, htc⟩
    simp [hasToolCallsAttr, hai]
  simp only [graphStep, chat_condition_concat, if_pos hcond]
  rfl

/-- The assistant node routes to `END` when the decision message carries no
tool calls. -/
lemma graphStep_assistant_final (dec : List Msg → Msg) (execB : List ToolCall → List Msg)
    (msgs : List Msg) (d : Nat) (htc : (dec msgs).tool_calls = []) :
    graphStep dec execB ⟨.assistant, msgs, d⟩ = ⟨.done, msgs ++ [dec msgs], d⟩ := by
  have hcond : ¬(hasToolCallsAttr (dec msgs) ∧ (dec msgs).tool_calls ≠ []) := by
    rintro ⟨-, h⟩
    exact h htc
  simp only [graphStep, chat_condition_concat, if_neg hcond]
  rfl

/-- The tools node always returns to the assistant node, incrementing the
dispatch count. -/
lemma graphStep_tools (dec : List Msg → Msg) (execB : List ToolCall → List Msg)
    (msgs : List Msg) (d : Nat) :
    graphStep dec execB ⟨.tools, msgs, d⟩ =
      ⟨.assistant, msgs ++ execB ((msgs.getLast?.map Msg.tool_calls).getD []), d + 1⟩ := rfl

/-- With a decision step that always answers with a tool-calling `AIMessage`,
the run alternates between the assistant and tools nodes forever. -/
lemma runGraph_no_done (dec : List Msg → Msg) (execB : List ToolCall → List Msg)
    (init : List Msg) (hai : ∀ msgs, (dec msgs).role = .ai)
    (htc : ∀ msgs, (dec msgs).tool_calls ≠ []) (n : Nat) :
    (runGraph dec execB init n).node = .assistant ∨
      (runGraph dec execB init n).node = .tools := by
  induction n with
  | zero => left; rfl
  | succ n ih =>
    have hstep : runGraph dec execB init (n + 1) =
        graphStep dec execB (runGraph dec execB init n) := rfl
    rcases hs : runGraph dec execB init n with ⟨node, msgs, d⟩
    rw [hs] at ih hstep
    rcases ih with h | h
    · subst h
      rw [hstep, graphStep_assistant_toolcall dec execB msgs d (hai msgs) (htc msgs)]
      right
      rfl
    · subst h
      rw [hstep, graphStep_tools]
      left
      rfl

/-! ## C2 — no round cap in the graph -/

/-- C2 counterexample: the graph built by `create_travel_agent_graph` imposes
no bound on decision rounds.  With a decision step that always requests a
valid tool call, no number of supersteps ever reaches `END` — so no terminal
fallback answer is produced after any fixed maximum of rounds. -/
theorem C2_counterexample :
    ¬ ∃ n : Nat, (runGraph alwaysToolDec echoExec [] n).node = GNode.done := by
  rintro ⟨n, hn⟩
  rcases runGraph_no_done alwaysToolDec echoExec [] (fun _ => rfl) (fun _ => List.cons_ne_nil _ _) n
    with h | h
  · rw [hn] at h
    exact GNode.noConfusion h
  · rw [hn] at h
    exact GNode.noConfusion h

/-- C2 (amended): the loop between the decision step and tool dispatch is
**not** capped by the repository's graph: for every decision step that
always returns a (valid) tool-calling message, the run never reaches `END`
within any number of rounds, and no fallback answer is produced by the
graph itself (termination can only come from the decision step answering
directly, or from the external runtime's recursion limit, which raises an
error rather than producing a fallback answer). -/
theorem C2_no_round_cap (dec : List Msg → Msg) (execB : List ToolCall → List Msg)
    (init : List Msg) (hai : ∀ msgs, (dec msgs).role = .ai)
    (htc : ∀ msgs, (dec msgs).tool_calls ≠ []) (n : Nat) :
    (runGraph dec execB init n).node ≠ GNode.done := by
  intro hdone
  rcases runGraph_no_done dec execB init hai htc n with h | h
  · rw [hdone] at h
    exact GNode.noConfusion h
  · rw [hdone] at h
    exact GNode.noConfusion h

/-- Witness for C2 at a concrete always-tool-calling decision step. -/
theorem C2_no_round_cap_witness :
    (runGraph alwaysToolDec echoExec [] 4).node ≠ GNode.done :=
  C2_no_round_cap alwaysToolDec echoExec [] (fun _ => rfl) (fun _ => List.cons_ne_nil _ _) 4

/-! ## C7 — routing on tool calls, zero dispatches on a direct answer -/

/-- C7: after the decision step runs, the orchestrator routes to tool
dispatch if and only if the assistant message carries a nonempty
`tool_calls` sequence; with no tool calls it transitions directly to turn
completion, and the turn performs zero tool dispatches. -/
theorem C7_decision_routing (dec : List Msg → Msg) (execB : List ToolCall → List Msg)
    (init : List Msg) (hai : (dec init).role = .ai) :
    ((runGraph dec execB init 1).node = GNode.tools ↔ (dec init).tool_calls ≠ []) ∧
    ((runGraph dec execB init 1).node = GNode.done ↔ (dec init).tool_calls = []) ∧
    ((dec init).tool_calls = [] →
      runGraph dec execB init 1 = ⟨GNode.done, init ++ [dec init], 0⟩) := by
  have h1 : runGraph dec execB init 1 = graphStep dec execB ⟨.assistant, init, 0⟩ := rfl
  by_cases htc : (dec init).tool_calls = []
  · rw [h1, graphStep_assistant_final dec execB init 0 htc]
    simp [htc]
  · rw [h1, graphStep_assistant_toolcall dec execB init 0 hai htc]
    simp [htc]

/-- Witness for C7 at a concrete direct-answer decision step. -/
theorem C7_decision_routing_witness :
    ((runGraph finalAnswerDec echoExec [] 1).node = GNode.tools ↔
      (finalAnswerDec []).tool_calls ≠ []) ∧
    ((runGraph finalAnswerDec echoExec [] 1).node = GNode.done ↔
      (finalAnswerDec []).tool_calls = []) ∧
    ((finalAnswerDec []).tool_calls = [] →
      runGraph finalAnswerDec echoExec [] 1 = ⟨GNode.done, [] ++ [finalAnswerDec []], 0⟩) :=
  C7_decision_routing finalAnswerDec echoExec [] rfl

/-! ## C6 — search result normalization -/

/-- C6: on a successful search response the tool output is the rendering of
the ordered sequence of `{title, url, summary}` records obtained from the
result list (first conjunct — the order of records follows the order of the
results); a summary whose content exceeds 280 characters is cut to its
first 280 characters with an appended ellipsis (second and third
conjuncts); and the quote-sanitization applied to each embedded field
leaves no double-quote character (last conjunct). -/
theorem C6_search_normalization (query : String) (maxResults : Int) (k : String)
    (oracle : Nat → TavilyOutcome) (docs : List (Option TavilyDoc)) (doc : TavilyDoc)
    (s : String) (hq : (pyStrip query).length ≠ 0)
    (ho : oracle 0 = .ok (.dictWithResults (some docs)))
    (hlong : 280 < (docContent doc).length) :
    (web_search_tavily query maxResults (some k) oracle).1 =
      .ok (renderSources
        ((pyTakeSlice docs (if maxResults = 0 then 2 else maxResults)).filterMap
          normalizeDoc)) ∧
    summarize (docContent doc) = String.mk ((docContent doc).data.take 280) ++ "…" ∧
    (summarize (docContent doc)).length = 281 ∧
    quoteChar ∉ (sanitizeQuotes s).data := by
  refine ⟨?_, ?_, ?_, ?_⟩
  · simp only [web_search_tavily, if_neg hq, ho, processResp, Option.getD]
  · unfold summarize
    rw [if_pos hlong]
  · unfold summarize
    rw [if_pos hlong, String.length_append]
    have h280 : (String.mk ((docContent doc).data.take 280)).length = 280 := by
      show ((docContent doc).data.take 280).length = 280
      rw [List.length_take]
      have hd : (docContent doc).data.length = (docContent doc).length := rfl
      omega
    rw [h280]
    rfl
  · intro hmem
    have hmem2 : quoteChar ∈ s.data.map (fun c => if c = quoteChar then apostropheChar else c) :=
      hmem
    rcases List.mem_map.mp hmem2 with ⟨c, _, heq⟩
    by_cases h : c = quoteChar
    · rw [if_pos h] at heq
      exact absurd heq (by decide)
    · rw [if_neg h] at heq
      exact h heq

section ConcreteSearchEvaluation

set_option maxRecDepth 8000

/-- Witness for C6 at a concrete query and a concrete single-result response
whose content runs to 300 characters. -/
theorem C6_search_normalization_witness :
    (web_search_tavily "rome attractions" 2 (some "tk") c6oracle).1 =
      .ok (renderSources
        ((pyTakeSlice [some c6doc] (if (2 : Int) = 0 then 2 else 2)).filterMap
          normalizeDoc)) ∧
    summarize (docContent c6doc) = String.mk ((docContent c6doc).data.take 280) ++ "…" ∧
    (summarize (docContent c6doc)).length = 281 ∧
    quoteChar ∉ (sanitizeQuotes "say \"hi\"").data :=
  C6_search_normalization "rome attractions" 2 "tk" c6oracle [some c6doc] c6doc "say \"hi\""
    (by decide) rfl (by decide)

end ConcreteSearchEvaluation

/-! ## C8 — output length cap -/

/-- Dropping non-whitespace characters is the identity on a run of a single
non-whitespace character. -/
lemma dropWhile_replicate_char (n : Nat) (c : Char) (h : Char.isWhitespace c = false) :
    (List.replicate n c).dropWhile Char.isWhitespace = List.replicate n c := by
  cases n with
  | zero => rfl
  | succ n =>
    rw [List.replicate_succ, List.dropWhile_cons, h]
    simp

/-- `strip` is the identity on a run of a single non-whitespace character. -/
lemma pyStrip_replicate_char (n : Nat) (c : Char) (h : Char.isWhitespace c = false) :
    pyStrip (String.mk (List.replicate n c)) = String.mk (List.replicate n c) := by
  unfold pyStrip
  rw [show (String.mk (List.replicate n c)).data = List.replicate n c from rfl,
    dropWhile_replicate_char n c h, List.reverse_replicate, dropWhile_replicate_char n c h,
    List.reverse_replicate]

/-- Quote sanitization is the identity on a run of `'a'`. -/
lemma sanitizeQuotes_replicate_a (n : Nat) :
    sanitizeQuotes (String.mk (List.replicate n 'a')) = String.mk (List.replicate n 'a') := by
  unfold sanitizeQuotes
  rw [show (String.mk (List.replicate n 'a')).data = List.replicate n 'a' from rfl,
    List.map_replicate]
  have ha : (if 'a' = quoteChar then apostropheChar else 'a') = 'a' := by decide
  rw [ha]

/-- The display truncation branch of `print_turn` for long outputs. -/
lemma printTurnDisplay_of_ge (out : String) (h : 2000 ≤ out.length) :
    printTurnDisplay out = String.mk (out.data.take 2000) ++ "... [truncated]" := by
  unfold printTurnDisplay
  rw [if_neg (by omega)]

/-- A truncated display line always has exactly 2015 characters. -/
lemma printTurnDisplay_length_of_ge (out : String) (h : 2000 ≤ out.length) :
    (printTurnDisplay out).length = 2015 := by
  rw [printTurnDisplay_of_ge out h, String.length_append]
  have h2000 : (String.mk (out.data.take 2000)).length = 2000 := by
    show (out.data.take 2000).length = 2000
    rw [List.length_take]
    have hd : out.data.length = out.length := rfl
    omega
  rw [h2000]
  rfl

/-- C8 counterexample: the string a tool hands back into the conversation is
**not** length-capped.  A successful search response whose title runs to
3000 characters produces a 3035-character tool output that is returned
verbatim — far beyond the claimed ~2000-character threshold — with no
truncation marker: it differs from what the (display-only) truncation would
produce. -/
theorem C8_counterexample :
    (web_search_tavily "rome hotels" 2 (some "tk") c8oracle).1 = .ok c8output ∧
    2015 < c8output.length ∧
    printTurnDisplay c8output ≠ c8output := by
  have htitle_len : c8title.length = 3000 := by
    show (List.replicate 3000 'a').length = 3000
    rw [List.length_replicate]
  have htne : c8title ≠ "" := by
    intro h
    have h0 := congrArg String.length h
    rw [htitle_len] at h0
    exact absurd h0 (by decide)
  have hsan : sanitizeQuotes c8title = c8title := sanitizeQuotes_replicate_a 3000
  have htitle : docTitle longTitleDoc = c8title := pyStrip_replicate_char 3000 'a' (by decide)
  have hnorm : normalizeDoc (some longTitleDoc) = some (renderRecord c8title "" "") := by
    simp only [normalizeDoc, htitle]
    rw [if_pos (Or.inr (Or.inl htne))]
    rw [show docUrl longTitleDoc = "" from rfl, show summarize (docContent longTitleDoc) = ""
      from rfl, hsan]
    rfl
  have hout : c8output = "sources: [" ++ renderRecord c8title "" "" ++ "]" := rfl
  have hbig : 2015 < c8output.length := by
    rw [hout]
    simp only [String.length_append, renderRecord]
    rw [htitle_len]
    have l1 : ("sources: [" : String).length = 10 := by decide
    have l2 : ("\x7btitle: \"" : String).length = 9 := by decide
    have l3 : ("\", url: \"" : String).length = 9 := by decide
    have l4 : ("\", summary: \"" : String).length = 13 := by decide
    have l5 : ("\"\x7d" : String).length = 2 := by decide
    have l6 : ("]" : String).length = 1 := by decide
    have l7 : ("" : String).length = 0 := by decide
    omega
  refine ⟨?_, hbig, ?_⟩
  · have hq : ¬((pyStrip "rome hotels").length = 0) := by decide
    simp only [web_search_tavily, if_neg hq, c8oracle, processResp, Option.getD]
    rw [if_neg (by norm_num : ¬((2 : Int) = 0))]
    rw [show pyTakeSlice [some longTitleDoc] (2 : Int) = [some longTitleDoc] from rfl,
      List.filterMap_cons, hnorm]
    rfl
  · intro h
    have hlen := congrArg String.length h
    rw [printTurnDisplay_length_of_ge c8output (by omega)] at hlen
    omega

/-- C8 (amended): the length cap lives in the CLI display layer, not in the
tool results: `print_turn` shows a tool output shorter than 2000 characters
verbatim, and for longer outputs prints its first 2000 characters followed
by the explicit marker `"... [truncated]"` (2015 characters in all), while
the string returned into the conversation itself is never capped. -/
theorem C8_display_truncation (out : String) :
    (out.length < 2000 → printTurnDisplay out = out) ∧
    (2000 ≤ out.length →
      printTurnDisplay out = String.mk (out.data.take 2000) ++ "... [truncated]" ∧
      (printTurnDisplay out).length = 2015) := by
  constructor
  · intro h
    unfold printTurnDisplay
    rw [if_pos h]
  · intro h
    exact ⟨printTurnDisplay_of_ge out h, printTurnDisplay_length_of_ge out h⟩

/-- Witness for C8 at a concrete short output and a concrete 2500-character
output. -/
theorem C8_display_truncation_witness :
    printTurnDisplay "sources: []" = "sources: []" ∧
    (printTurnDisplay (String.mk (List.replicate 2500 'b')) =
      String.mk ((String.mk (List.replicate 2500 'b')).data.take 2000) ++ "... [truncated]" ∧
    (printTurnDisplay (String.mk (List.replicate 2500 'b'))).length = 2015) :=
  ⟨(C8_display_truncation "sources: []").1 (by decide),
   (C8_display_truncation (String.mk (List.replicate 2500 'b'))).2 (by
    show 2000 ≤ (List.replicate 2500 'b').length
    rw [List.length_replicate]
    omega)⟩

end Travel
